import Mathlib

/-!
Shallow embedding of the order/position/account ledger of the `algo_trading`
repository (`algo_trading/position_handler.py` and
`algo_trading/account_handler.py`), together with theorems settling claims
about its specification.

Modelling conventions:
* Python floats are modelled as `ℚ`; the source performs only exact
  arithmetic (`+`, `-`, `*`, `/`) on them.
* Timestamps are modelled as `ℚ` numbers of seconds, so
  `(a - b).total_seconds()` becomes plain subtraction.
* A raised Python exception is modelled by returning the error message next
  to the state the object graph has at the moment of the raise (the source
  keeps all state in mutable objects, so mutations performed before a raise
  survive it).
* Python truthiness tests on optional numbers (`if position.sl: ...`) are
  modelled by `truthyQ` / `truthyInt`: both `None` and `0` are falsy, every
  other number is truthy.
* Object identity of `Position` / `Order` objects is modelled by their ids;
  the handler assigns ids from strictly increasing counters, so within one
  handler the id determines the object, and `list.remove(obj)` becomes a
  filter on the id.
* Logging calls are ignored; file persistence (`_save_closed_positions`,
  `_save_historical_orders`) is modelled by the `closed_positions` /
  `historical_orders` append-only lists carried in the handler state.
-/

namespace AlgoTrading

/-- `OrderType` enum of `position_handler.py`. -/
inductive OrderType where
  | BUY
  | SELL
  | MODIFY
  | CLOSE
deriving DecidableEq

/-- `PositionStatus` enum of `position_handler.py`. -/
inductive PositionStatus where
  | ACTIVE
  | CLOSED
deriving DecidableEq

/-- `OrderStatus` enum of `position_handler.py`. -/
inductive OrderStatus where
  | PENDING
  | EXECUTED
  | CANCELLED
deriving DecidableEq

/-- The `Position` class:  constructor fields plus the mutable fields
initialised in `Position.__init__` (`status`, `close_price`, `close_time`,
`profit_loss`, `reason`). -/
structure Position where
  position_id : Nat
  type : OrderType
  open_price : ℚ
  quantity : ℚ
  sl : Option ℚ
  tp : Option ℚ
  open_time : ℚ
  status : PositionStatus
  close_price : Option ℚ
  close_time : Option ℚ
  profit_loss : Option ℚ
  reason : Option String
deriving DecidableEq

/-- `Position.__init__`: a freshly constructed position is `ACTIVE` with all
closure fields `None`. -/
def Position.mkNew (position_id : Nat) (type : OrderType) (open_price quantity : ℚ)
    (sl tp : Option ℚ) (open_time : ℚ) : Position :=
  ⟨position_id, type, open_price, quantity, sl, tp, open_time,
   PositionStatus.ACTIVE, none, none, none, none⟩

/-- The profit/loss computed in `Position.close`: `(close_price - open_price)
* quantity` for `BUY`, `(open_price - close_price) * quantity` for `SELL`.
For any other type the source assigns nothing, leaving the previous value. -/
def realizedPnl (p : Position) (close_price : ℚ) : Option ℚ :=
  match p.type with
  | OrderType.BUY => some ((close_price - p.open_price) * p.quantity)
  | OrderType.SELL => some ((p.open_price - close_price) * p.quantity)
  | _ => p.profit_loss

/-- `Position.close`: a no-op (logged warning) unless the position is
`ACTIVE`; otherwise records close price/time, computes the profit/loss,
marks the position `CLOSED` and stores the reason.  The source defaults
`close_time` to `pd.Timestamp.now()` when `None`; the model's caller always
supplies the effective time. -/
def Position.close (p : Position) (close_price : ℚ) (close_time : ℚ)
    (reason : Option String) : Position :=
  if p.status ≠ PositionStatus.ACTIVE then p
  else
    { p with
      close_price := some close_price,
      close_time := some close_time,
      profit_loss := realizedPnl p close_price,
      status := PositionStatus.CLOSED,
      reason := reason }

/-- Python truthiness of an optional float: `None` and `0` are falsy. -/
def truthyQ : Option ℚ → Bool
  | none => false
  | some v => decide (v ≠ 0)

/-- Python truthiness of an optional int: `None` and `0` are falsy. -/
def truthyInt : Option Int → Bool
  | none => false
  | some v => decide (v ≠ 0)

/-- Python `str(x)` of an optional string, as used by the f-string
`f"{reason} - Partial Close"`: `None` prints as `"None"`. -/
def pyStr : Option String → String
  | none => "None"
  | some s => s

/-- The `Order` class.  `position_reference` holds (the id of) the position
an executed `BUY`/`SELL` order created, or the position a `MODIFY`/`CLOSE`
order targets. -/
structure Order where
  order_id : Nat
  type : OrderType
  price : ℚ
  quantity : ℚ
  sl : Option ℚ
  tp : Option ℚ
  status : OrderStatus
  max_time_active : Option Int
  creation_time : ℚ
  reason : Option String
  position_reference : Option Nat
deriving DecidableEq

/-- `Order.cancel`: a no-op unless the order is `PENDING`; otherwise marks it
`CANCELLED` and stores the reason. -/
def Order.cancel (o : Order) (reason : String) : Order :=
  if o.status ≠ OrderStatus.PENDING then o
  else { o with status := OrderStatus.CANCELLED, reason := some reason }

/-- The mutable state of `OperationHandler` (called `PositionHandler` by the
tests).  `historical_orders` / `closed_positions` model the append-only
pickle files written through `DataStorage`. -/
structure Handler where
  pending_orders : List Order
  positions : List Position
  initial_balance : ℚ
  current_balance : ℚ
  historical_orders : List Order
  closed_positions : List Position
  order_counter : Nat
  position_counter : Nat
deriving DecidableEq

/-- `max_time_active is not None and max_time_active <= 0` from
`_validate_order_params`. -/
def badMaxTime : Option Int → Bool
  | none => false
  | some m => decide (m ≤ 0)

/-- `x is not None and x >= y` on optional floats. -/
def isSomeAndGe (x : Option ℚ) (y : ℚ) : Bool :=
  match x with
  | none => false
  | some v => decide (y ≤ v)

/-- `x is not None and x <= y` on optional floats. -/
def isSomeAndLe (x : Option ℚ) (y : ℚ) : Bool :=
  match x with
  | none => false
  | some v => decide (v ≤ y)

/-- `OperationHandler._validate_order_params`: the creation/edit validation
rules for orders.  A returned `Except.error` models the raised
`ValueError`. -/
def validate_order_params (t : OrderType) (price quantity : ℚ)
    (sl tp : Option ℚ) (max_time_active : Option Int) : Except String Unit :=
  if price ≤ 0 then Except.error "Price must be greater than zero."
  else if quantity ≤ 0 then Except.error "Quantity must be greater than zero."
  else if badMaxTime max_time_active then
    Except.error "Max time active must be greater than zero."
  else if decide (t = OrderType.BUY) && isSomeAndGe sl price then
    Except.error "Stop-loss for a BUY order must be below the entry price."
  else if decide (t = OrderType.BUY) && isSomeAndLe tp price then
    Except.error "Take-profit for a BUY order must be above the entry price."
  else if decide (t = OrderType.SELL) && isSomeAndLe sl price then
    Except.error "Stop-loss for a SELL order must be above the entry price."
  else if decide (t = OrderType.SELL) && isSomeAndGe tp price then
    Except.error "Take-profit for a SELL order must be below the entry price."
  else Except.ok ()

/-- `OperationHandler._validate_position_params`: same shape as the order
validation, without the `max_time_active` rule. -/
def validate_position_params (t : OrderType) (open_price quantity : ℚ)
    (sl tp : Option ℚ) : Except String Unit :=
  if open_price ≤ 0 then Except.error "Open price must be greater than zero."
  else if quantity ≤ 0 then Except.error "Quantity must be greater than zero."
  else if decide (t = OrderType.BUY) && isSomeAndGe sl open_price then
    Except.error "Stop-loss for a BUY position must be below the open price."
  else if decide (t = OrderType.BUY) && isSomeAndLe tp open_price then
    Except.error "Take-profit for a BUY position must be above the open price."
  else if decide (t = OrderType.SELL) && isSomeAndLe sl open_price then
    Except.error "Stop-loss for a SELL position must be above the open price."
  else if decide (t = OrderType.SELL) && isSomeAndGe tp open_price then
    Except.error "Take-profit for a SELL position must be below the open price."
  else Except.ok ()

/-- Replace (the object with) id `pid` in a position list, modelling an
in-place mutation of the shared object. -/
def updateById (ps : List Position) (pid : Nat) (f : Position → Position) : List Position :=
  ps.map (fun p => if p.position_id = pid then f p else p)

/-- `self.positions.remove(position)`, by object id. -/
def removeById (ps : List Position) (pid : Nat) : List Position :=
  ps.filter (fun p => decide (p.position_id ≠ pid))

/-- Result of `OperationHandler.close_position` on a specific position
object: the handler state, the state of the passed position object after the
call, and `some message` when the call raised.  On a raise, `handler` and
`obj` reflect the mutations performed before the raising statement. -/
structure CloseOutcome where
  handler : Handler
  obj : Position
  err : Option String
deriving DecidableEq

/-- `OperationHandler.close_position(price, quantity, close_time, reason,
position)` with an explicit target position object `pos`:
* not `ACTIVE` → no-op (the `continue` falls off the loop);
* `quantity > pos.quantity` → raises
  `ValueError("Cannot close more than the available quantity.")` before any
  mutation;
* `quantity < pos.quantity` → partial closure: the original's quantity is
  reduced in place, a new already-closed sibling with the closed slice and
  reason `f"{reason} - Partial Close"` is created (consuming the position
  counter) and persisted, and the balance grows by the sibling's
  profit/loss;
* `quantity == pos.quantity` → full closure: the original is closed in
  place, removed from the active list, persisted, and the balance grows by
  its profit/loss.
The `TypeError` branches model `self.current_balance += None`, reachable
only for positions whose type is neither `BUY` nor `SELL`. -/
def close_position (h : Handler) (price quantity : ℚ) (close_time : ℚ)
    (reason : Option String) (pos : Position) : CloseOutcome :=
  if pos.status ≠ PositionStatus.ACTIVE then ⟨h, pos, none⟩
  else if pos.quantity < quantity then
    ⟨h, pos, some "Cannot close more than the available quantity."⟩
  else if quantity < pos.quantity then
    let pos' := { pos with quantity := pos.quantity - quantity }
    let sib :=
      Position.close
        (Position.mkNew h.position_counter pos.type pos.open_price quantity
          none none pos.open_time)
        price close_time (some (pyStr reason ++ " - Partial Close"))
    let h' :=
      { h with
        positions := updateById h.positions pos.position_id (fun _ => pos'),
        position_counter := h.position_counter + 1,
        closed_positions := h.closed_positions ++ [sib] }
    match sib.profit_loss with
    | some pl => ⟨{ h' with current_balance := h'.current_balance + pl }, pos', none⟩
    | none => ⟨h', pos', some "TypeError: unsupported operand type"⟩
  else
    let posC := Position.close pos price close_time reason
    let h' :=
      { h with
        positions := removeById h.positions pos.position_id,
        closed_positions := h.closed_positions ++ [posC] }
    match posC.profit_loss with
    | some pl => ⟨{ h' with current_balance := h'.current_balance + pl }, posC, none⟩
    | none => ⟨h', posC, some "TypeError: unsupported operand type"⟩

/-- The per-position update rule of `OperationHandler.modify_position`: an
`ACTIVE` position receives the truthy new `sl` / `tp` values (falsy
arguments keep the old field); any other position is untouched. -/
def modifyRule (sl tp : Option ℚ) (p : Position) : Position :=
  if p.status = PositionStatus.ACTIVE then
    { p with
      sl := if truthyQ sl then sl else p.sl,
      tp := if truthyQ tp then tp else p.tp }
  else p

/-- `OperationHandler.modify_position(price, sl, tp)`: iterates over all
positions and applies `modifyRule` to each; the `price` argument is ignored
by the body. -/
def modify_position (h : Handler) (price : ℚ) (sl tp : Option ℚ) : Handler :=
  let _ := price
  { h with positions := h.positions.map (modifyRule sl tp) }

/-- The keyword arguments accepted by `OperationHandler.edit_order`.  An
outer `none` models an absent key (the corresponding `kwargs.get` keeps the
order's current value); `some v` models a supplied value `v`. -/
structure EditKwargs where
  price : Option ℚ
  quantity : Option ℚ
  sl : Option (Option ℚ)
  tp : Option (Option ℚ)
  max_time_active : Option (Option Int)
deriving DecidableEq

/-- The field merge performed by `edit_order` before validation:
`order.field = kwargs.get("field", order.field)` for each editable field. -/
def mergeOrder (o : Order) (kw : EditKwargs) : Order :=
  { o with
    price := kw.price.getD o.price,
    quantity := kw.quantity.getD o.quantity,
    sl := kw.sl.getD o.sl,
    tp := kw.tp.getD o.tp,
    max_time_active := kw.max_time_active.getD o.max_time_active }

/-- `OperationHandler.edit_order(order_id, **kwargs)`: finds the first
pending order with the given id (a logged no-op when absent or not
`PENDING`), overwrites its fields with the merged values, and only then
validates them; a validation failure raises with the mutation already
applied.  The second component is `some message` when the call raised. -/
def edit_order (h : Handler) (order_id : Nat) (kw : EditKwargs) :
    Handler × Option String :=
  match h.pending_orders.find? (fun o => decide (o.order_id = order_id)) with
  | none => (h, none)
  | some o =>
    if o.status ≠ OrderStatus.PENDING then (h, none)
    else
      let o' := mergeOrder o kw
      let h' :=
        { h with
          pending_orders :=
            h.pending_orders.map (fun q => if q.order_id = order_id then o' else q) }
      match validate_order_params o'.type o'.price o'.quantity o'.sl o'.tp
          o'.max_time_active with
      | Except.ok _ => (h', none)
      | Except.error e => (h', some e)

/-- `OperationHandler.cancel_order(order, reason)`: a no-op unless the order
is `PENDING`; otherwise cancels it, removes it from the pending list and
persists it. -/
def cancel_order (h : Handler) (o : Order) (reason : String) : Handler :=
  if o.status ≠ OrderStatus.PENDING then h
  else
    let o' := o.cancel reason
    { h with
      pending_orders :=
        h.pending_orders.filter (fun q => decide (q.order_id ≠ o.order_id)),
      historical_orders := h.historical_orders ++ [o'] }

/-- The order-executed bookkeeping shared by every branch of
`_execute_order`: mark the order `EXECUTED`, persist it, and remove it from
the pending list. -/
def finalizeExecuted (h : Handler) (o : Order) : Handler :=
  let o' := { o with status := OrderStatus.EXECUTED }
  { h with
    historical_orders := h.historical_orders ++ [o'],
    pending_orders :=
      h.pending_orders.filter (fun q => decide (q.order_id ≠ o.order_id)) }

/-- `OperationHandler._execute_order(order)`, with `now` the effective
timestamp for the `pd.Timestamp.now()` used by the `CLOSE` branch.
* `BUY`/`SELL`: re-validates the position parameters (raising before any
  mutation on failure), creates and appends a new `ACTIVE` position from the
  order's fields, and links it via `position_reference`.
* `MODIFY`: if the order holds a position reference and that position is
  `ACTIVE`, overwrites its truthy `sl` / `tp`.
* `CLOSE`: if the order holds a reference to an `ACTIVE` position, closes it
  through `close_position` with the order's price/quantity and reason
  `"Closed via linked order"`; a raise from `close_position` propagates
  before the order is finalized.
A referenced object absent from the active list is necessarily `CLOSED`
(full closure is the only removal), so the lookup-miss no-op coincides with
the source's status check on the referenced object. -/
def execute_order (h : Handler) (o : Order) (now : ℚ) : Handler × Option String :=
  if o.status ≠ OrderStatus.PENDING then (h, none)
  else
    match o.type with
    | OrderType.BUY | OrderType.SELL =>
      match validate_position_params o.type o.price o.quantity o.sl o.tp with
      | Except.error e => (h, some e)
      | Except.ok _ =>
        let pid := h.position_counter
        let newPos := Position.mkNew pid o.type o.price o.quantity o.sl o.tp o.creation_time
        let h' :=
          { h with
            position_counter := pid + 1,
            positions := h.positions ++ [newPos] }
        (finalizeExecuted h' { o with position_reference := some pid }, none)
    | OrderType.MODIFY =>
      let h' :=
        match o.position_reference with
        | none => h
        | some pid =>
          { h with
            positions := h.positions.map (fun p =>
              if p.position_id = pid ∧ p.status = PositionStatus.ACTIVE then
                { p with
                  sl := if truthyQ o.sl then o.sl else p.sl,
                  tp := if truthyQ o.tp then o.tp else p.tp }
              else p) }
      (finalizeExecuted h' o, none)
    | OrderType.CLOSE =>
      match o.position_reference with
      | none => (finalizeExecuted h o, none)
      | some pid =>
        match h.positions.find? (fun p => decide (p.position_id = pid)) with
        | none => (finalizeExecuted h o, none)
        | some p =>
          if p.status = PositionStatus.ACTIVE then
            let r := close_position h o.price o.quantity now
              (some "Closed via linked order") p
            match r.err with
            | some e => (r.handler, some e)
            | none => (finalizeExecuted r.handler o, none)
          else (finalizeExecuted h o, none)

/-- `OperationHandler._should_execute_order`: `BUY` executes when the price
has fallen to the order price, `SELL` when it has risen to it; every other
type never executes. -/
def should_execute_order (o : Order) (current_price : ℚ) : Bool :=
  if o.type = OrderType.BUY ∧ current_price ≤ o.price then true
  else if o.type = OrderType.SELL ∧ o.price ≤ current_price then true
  else false

/-- The timeout test of `_process_pending_orders`:
`order.max_time_active and (current_time - order.creation_time)
.total_seconds() > order.max_time_active` — note the truthiness test on the
duration. -/
def timeoutHit (o : Order) (current_time : ℚ) : Bool :=
  truthyInt o.max_time_active &&
    decide ((o.max_time_active.getD 0 : ℚ) < current_time - o.creation_time)

/-- The body of the `_process_pending_orders` loop for one snapshot order:
skip non-pending orders, cancel on timeout (reason `"Timeout reached."`),
otherwise execute when the execution predicate holds. -/
def processOrderStep (h : Handler) (o : Order) (current_price current_time : ℚ) :
    Handler × Option String :=
  if o.status ≠ OrderStatus.PENDING then (h, none)
  else if timeoutHit o current_time then
    (cancel_order h o "Timeout reached.", none)
  else if should_execute_order o current_price then
    execute_order h o current_time
  else (h, none)

/-- The `_process_pending_orders` loop over a snapshot list, aborting (with
the partial state) when an iteration raises. -/
def processOrdersAux (current_price current_time : ℚ) :
    Handler → List Order → Handler × Option String
  | h, [] => (h, none)
  | h, o :: rest =>
    match processOrderStep h o current_price current_time with
    | (h', some e) => (h', some e)
    | (h', none) => processOrdersAux current_price current_time h' rest

/-- `OperationHandler._process_pending_orders(current_price, current_time)`:
iterates over a snapshot (`self.pending_orders[:]`) of the pending list. -/
def process_pending_orders (h : Handler) (current_price current_time : ℚ) :
    Handler × Option String :=
  processOrdersAux current_price current_time h h.pending_orders

/-- `position.sl and latest_price <= position.sl` (truthiness included). -/
def slTriggers (p : Position) (latest_price : ℚ) : Bool :=
  match p.sl with
  | none => false
  | some s => decide (s ≠ 0) && decide (latest_price ≤ s)

/-- `position.tp and latest_price >= position.tp` (truthiness included). -/
def tpTriggers (p : Position) (latest_price : ℚ) : Bool :=
  match p.tp with
  | none => false
  | some s => decide (s ≠ 0) && decide (s ≤ latest_price)

/-- `OperationHandler._process_stop_loss`: close the position at its
stop-loss price, full current quantity, reason `"Stop Loss triggered"`. -/
def process_stop_loss (h : Handler) (p : Position) (current_time : ℚ) : CloseOutcome :=
  close_position h (p.sl.getD 0) p.quantity current_time
    (some "Stop Loss triggered") p

/-- `OperationHandler._process_take_profit`: close the position at its
take-profit price, full current quantity, reason `"Take Profit triggered"`. -/
def process_take_profit (h : Handler) (p : Position) (current_time : ℚ) : CloseOutcome :=
  close_position h (p.tp.getD 0) p.quantity current_time
    (some "Take Profit triggered") p

/-- The body of the `_process_active_positions` loop for one snapshot
position: skip non-active positions; run the stop-loss check, then —
independently, on the same object, whose state the stop-loss close may
already have advanced — the take-profit check. -/
def tickOne (h : Handler) (p : Position) (latest_price current_time : ℚ) :
    Handler × Option String :=
  if p.status ≠ PositionStatus.ACTIVE then (h, none)
  else
    let r1 := if slTriggers p latest_price then process_stop_loss h p current_time
              else ⟨h, p, none⟩
    match r1.err with
    | some e => (r1.handler, some e)
    | none =>
      let r2 := if tpTriggers r1.obj latest_price then
                  process_take_profit r1.handler r1.obj current_time
                else ⟨r1.handler, r1.obj, none⟩
      (r2.handler, r2.err)

/-- The `_process_active_positions` loop over a snapshot list, aborting
(with the partial state) when an iteration raises. -/
def processPositionsAux (latest_price current_time : ℚ) :
    Handler → List Position → Handler × Option String
  | h, [] => (h, none)
  | h, p :: rest =>
    match tickOne h p latest_price current_time with
    | (h', some e) => (h', some e)
    | (h', none) => processPositionsAux latest_price current_time h' rest

/-- `OperationHandler._process_active_positions(latest_price, current_time)`:
iterates over a snapshot (`self.positions[:]`) of the active list. -/
def process_active_positions (h : Handler) (latest_price current_time : ℚ) :
    Handler × Option String :=
  processPositionsAux latest_price current_time h h.positions

-- Sequences of closes against one position (claim C4) ----------------------

/-- One close request against a fixed position, as issued by a caller of
`close_position`. -/
structure CloseReq where
  price : ℚ
  quantity : ℚ
  time : ℚ
  reason : Option String
deriving DecidableEq

/-- Apply one close request to (handler, target-position-object), keeping
the post-raise state when the call raises — the caller catches the exception
and continues, as the handler state is unaffected past the raise point. -/
def closeSeqStep (s : Handler × Position) (req : CloseReq) : Handler × Position :=
  let r := close_position s.1 req.price req.quantity req.time req.reason s.2
  (r.handler, r.obj)

/-- A handler holding exactly one (freshly opened) position and no orders. -/
def singlePositionHandler (p : Position) (balance : ℚ) : Handler :=
  ⟨[], [p], balance, balance, [], [], 1, p.position_id + 1⟩

/-- Total quantity recorded in the persisted closed positions. -/
def closedQuantitySum (h : Handler) : ℚ :=
  (h.closed_positions.map Position.quantity).sum

/-- Total quantity still held in active positions. -/
def activeQuantitySum (h : Handler) : ℚ :=
  (h.positions.map Position.quantity).sum

/-- Coherence of the (handler, position-object) pair threaded through a
sequence of closes started from `singlePositionHandler`: while the object is
`ACTIVE` it is the sole entry of the active list (Python aliasing: the list
holds the very object being mutated). -/
def SeqCoherent (s : Handler × Position) : Prop :=
  s.2.status = PositionStatus.ACTIVE → s.1.positions = [s.2]

-- AccountHandler (claims C1 and C9) ----------------------------------------

/-- One entry of the `current_prices` dictionary handed to
`AccountHandler.calculate_unrealized_pnl`: optional `bid`, `ask` and `close`
keys. -/
structure Quote where
  bid : Option ℚ
  ask : Option ℚ
  close : Option ℚ
deriving DecidableEq

/-- A position as read by the account handler's unrealized-PnL loop:
`symbol`, `open_price`, `quantity`, `type` and status.  (The `Position`
class of `position_handler.py` in fact has no `symbol` attribute and the
handler has no `position` attribute — the loop reads
`self.position_handler.position` — so the loop as written cannot run at
all; the model supplies the fields the loop body names so that its
arithmetic can be examined.) -/
structure AccPosition where
  symbol : String
  type : OrderType
  open_price : ℚ
  quantity : ℚ
  status : PositionStatus
deriving DecidableEq

/-- Python's `enum_member == "STRING"`: comparing an `OrderType` enum member
with a `str` is always `False` (`Enum.__eq__` falls back to identity), so
both `position_type == "BUY"` and `position_type == "SELL"` in
`calculate_unrealized_pnl` never hold. -/
def pyEnumEqStr (t : OrderType) (s : String) : Bool :=
  let _ := t
  let _ := s
  false

/-- One iteration of the first `calculate_unrealized_pnl` loop body:
`pnl = 0`; if the symbol has a bid/ask pair or a close price,
`pnl += bid if type == "BUY" else ask` (an `Option` lookup with no default —
adding `None` raises `TypeError`), then the per-side PnL terms guarded by
the (never-true) enum-to-string comparisons; otherwise
`raise ValueError("Missing current prices")`. -/
def pnlIter (prices : String → Option Quote) (p : AccPosition) : Except String ℚ :=
  match prices p.symbol with
  | none => Except.error "Missing current prices"
  | some q =>
    if (q.bid.isSome && q.ask.isSome) || q.close.isSome then
      match (if pyEnumEqStr p.type "BUY" then q.bid else q.ask) with
      | none => Except.error "TypeError: unsupported operand type"
      | some mark =>
        let pnl : ℚ := 0 + mark
        let pnl :=
          if pyEnumEqStr p.type "BUY" then
            pnl + (q.bid.getD p.open_price - p.open_price) * p.quantity
          else if pyEnumEqStr p.type "SELL" then
            pnl + (p.open_price - q.ask.getD p.open_price) * p.quantity
          else pnl
        Except.ok pnl
    else Except.error "Missing current prices"

/-- The first definition of `AccountHandler.calculate_unrealized_pnl`
(lines 162–206): the loop rebinds `pnl` from scratch on every iteration and
only after the loop assigns `self.unrealized_pnl = pnl`, so the result is
the last iteration's value; an empty position list leaves `pnl` unbound
(`NameError`/`UnboundLocalError` at the assignment). -/
def calculate_unrealized_pnl (prices : String → Option Quote) :
    List AccPosition → Except String ℚ
  | [] => Except.error "UnboundLocalError: local variable pnl referenced before assignment"
  | [p] => pnlIter prices p
  | p :: q :: rest =>
    match pnlIter prices p with
    | Except.error e => Except.error e
    | Except.ok _ => calculate_unrealized_pnl prices (q :: rest)

/-- The second, shadowing definition of `calculate_unrealized_pnl`
(lines 208–255), the one Python actually binds to the method name: its body
begins `pair_base, pair_quote = symbol[:3], symbol[3:]` with `symbol` (and
`pnl`, `convert_directly`, ... ) undefined, so every call raises `NameError`
immediately. -/
def calculate_unrealized_pnl_shadowing (prices : String → Option Quote) :
    Except String ℚ :=
  let _ := prices
  Except.error "NameError: name symbol is not defined"

/-- Transcribed from the claim's words (the spec side of the comparison):
the per-position mark-to-market PnL, marking Buy at bid and Sell at ask
(falling back to the close price when the side's quote is absent). -/
def spec_mark_pnl (q : Quote) (p : AccPosition) : ℚ :=
  match p.type with
  | OrderType.BUY => (q.bid.getD (q.close.getD p.open_price) - p.open_price) * p.quantity
  | OrderType.SELL => (p.open_price - q.ask.getD (q.close.getD p.open_price)) * p.quantity
  | _ => 0

/-- Transcribed from the claim's words: unrealized PnL as the sum over all
`ACTIVE` positions of their mark-to-market PnL. -/
def spec_unrealized_pnl_sum (prices : String → Option Quote)
    (ps : List AccPosition) : ℚ :=
  (ps.filter (fun p => decide (p.status = PositionStatus.ACTIVE))).foldl
    (fun acc p =>
      acc + (match prices p.symbol with
             | some q => spec_mark_pnl q p
             | none => 0)) 0

/-- `AccountHandler.calculate_margin_level`: `equity / total_margin * 100`
when `total_margin > 0`, else `None` (undefined). -/
def calculate_margin_level (equity total_margin : ℚ) : Option ℚ :=
  if 0 < total_margin then some (equity / total_margin * 100) else none

/-- `AccountHandler.check_margin_call`:
`if self.margin_level and self.margin_level < 100` — a truthiness test, so a
margin level of exactly `0` is treated like an undefined one. -/
def check_margin_call (margin_level : Option ℚ) : Bool :=
  match margin_level with
  | none => false
  | some v => decide (v ≠ 0) && decide (v < 100)

/-- `AccountHandler.trigger_stop_out`:
`if self.margin_level and self.margin_level < 50` — same truthiness test
with threshold 50. -/
def trigger_stop_out (margin_level : Option ℚ) : Bool :=
  match margin_level with
  | none => false
  | some v => decide (v ≠ 0) && decide (v < 50)

-- Concrete fixtures -----------------------------------------------------

/-- The Buy position of the spec's worked example: opened at 100, quantity
10, stop-loss 95, take-profit 110. -/
def exBuyPos : Position :=
  Position.mkNew 1 OrderType.BUY 100 10 (some 95) (some 110) 0

/-- A Sell position opened at 100, quantity 10. -/
def exSellPos : Position :=
  Position.mkNew 2 OrderType.SELL 100 10 none none 0

/-- A handler holding just `exBuyPos`. -/
def exHandler : Handler :=
  ⟨[], [exBuyPos], 10000, 10000, [], [], 1, 2⟩

/-- A Buy position whose stop-loss passed creation validation with the value
`0` (`sl >= open_price` is false for `0 >= 100`), exercising the Python
truthiness of `if position.sl`. -/
def exZeroSlPos : Position :=
  Position.mkNew 1 OrderType.BUY 100 10 (some 0) none 0

/-- A Sell position whose stop-loss (110) and take-profit (95) are both
crossed by a tick at price 100. -/
def exSellBothCross : Position :=
  Position.mkNew 1 OrderType.SELL 100 10 (some 110) (some 95) 0

/-- A pending Buy order with `max_time_active = 5` seconds, created at time
0. -/
def exTimeoutOrder : Order :=
  ⟨1, OrderType.BUY, 100, 10, none, none, OrderStatus.PENDING, some 5, 0, none, none⟩

/-- A handler holding just `exTimeoutOrder`. -/
def exTimeoutHandler : Handler :=
  ⟨[exTimeoutOrder], [], 10000, 10000, [], [], 2, 1⟩

/-- A pending Buy order at price 100, quantity 10, no stops. -/
def exEditOrder : Order :=
  ⟨1, OrderType.BUY, 100, 10, none, none, OrderStatus.PENDING, none, 0, none, none⟩

/-- A handler holding just `exEditOrder`. -/
def exEditHandler : Handler :=
  ⟨[exEditOrder], [], 10000, 10000, [], [], 2, 1⟩

/-- An edit that sets the order's price to the invalid value `-5`. -/
def exBadKwargs : EditKwargs :=
  ⟨some (-5), none, none, none, none⟩

/-- An edit that moves the order's stops to valid values. -/
def exGoodKwargs : EditKwargs :=
  ⟨none, none, some (some 90), some (some 115), none⟩

/-- A second active Buy position, opened at 200 with its own stops. -/
def exBuyPosB : Position :=
  Position.mkNew 2 OrderType.BUY 200 5 (some 80) (some 250) 0

/-- A closed position (a fully closed copy of `exSellPos`). -/
def exClosedPos : Position :=
  Position.close exSellPos 95 1 (some "Manual close")

/-- A handler holding the two active positions `exBuyPos` and `exBuyPosB`. -/
def exTwoPosHandler : Handler :=
  ⟨[], [exBuyPos, exBuyPosB], 10000, 10000, [], [], 1, 3⟩

/-- A pending `MODIFY` order referencing position 1. -/
def exModifyOrder : Order :=
  ⟨3, OrderType.MODIFY, 100, 10, some 97, some 111, OrderStatus.PENDING, none, 0, none, some 1⟩

/-- A handler holding `exModifyOrder` and the position it references. -/
def exModifyHandler : Handler :=
  ⟨[exModifyOrder], [exBuyPos], 10000, 10000, [], [], 4, 2⟩

/-- Account-handler view of a Buy position on `"EURUSD"`: open 100,
quantity 10. -/
def exAccPosA : AccPosition :=
  ⟨"EURUSD", OrderType.BUY, 100, 10, PositionStatus.ACTIVE⟩

/-- Account-handler view of a Buy position on `"GBPUSD"`: open 200,
quantity 1. -/
def exAccPosB : AccPosition :=
  ⟨"GBPUSD", OrderType.BUY, 200, 1, PositionStatus.ACTIVE⟩

/-- A quote map with a bid/ask pair for each held symbol. -/
def exPrices : String → Option Quote := fun s =>
  if s = "EURUSD" then some ⟨some 105, some 106, none⟩
  else if s = "GBPUSD" then some ⟨some 210, some 211, none⟩
  else none

/-- The two partial-close requests of the spec's multi-partial-close
example: close 3 at 105, then 2 at 107. -/
def exCloseReqs : List CloseReq :=
  [⟨105, 3, 1, some "Partial close"⟩, ⟨107, 2, 2, some "Another partial close"⟩]

-- Theorems ----------------------------------------------------------------

/-- C1: the claim says the account update sets the unrealized PnL to the sum
over all Active positions of their mark-to-market PnL (Buy at bid, Sell at
ask), not merely the PnL of one position.  The code does not: on two Active
Buy positions with full bid/ask quotes, the first source definition of
`calculate_unrealized_pnl` returns the ask price of the last-iterated symbol
(the accumulator is rebound each iteration and the enum-to-string side
comparisons never hold), 211, while the sum the claim demands is 60; the
runtime method is moreover shadowed by a second definition that raises
`NameError` on every call. -/
theorem C1_unrealized_pnl_divergence :
    calculate_unrealized_pnl exPrices [exAccPosA, exAccPosB] = Except.ok 211 ∧
    spec_unrealized_pnl_sum exPrices [exAccPosA, exAccPosB] = 60 ∧
    (211 : ℚ) ≠ 60 ∧
    calculate_unrealized_pnl_shadowing exPrices =
      Except.error "NameError: name symbol is not defined" := by
  have hEU : exPrices "EURUSD" = some ⟨some 105, some 106, none⟩ := by decide
  have hGB : exPrices "GBPUSD" = some ⟨some 210, some 211, none⟩ := by decide
  refine ⟨?_, ?_, by norm_num, rfl⟩ <;>
    norm_num [calculate_unrealized_pnl, pnlIter, pyEnumEqStr,
      spec_unrealized_pnl_sum, spec_mark_pnl, hEU, hGB, exAccPosA, exAccPosB]

/-- C9: the claim says the margin level is `100 × equity / total margin`
when total margin is positive and undefined when it is zero, and that the
margin-call and stop-out flags are raised exactly when the level is defined
and below 100 resp. 50 — in particular at a defined level of exactly 0.  The
code computes the level as claimed, but its truthiness test
(`if self.margin_level and ...`) treats the defined level `0` like an
undefined one: with equity 0 and total margin 100 the level is `some 0`, yet
neither flag is raised. -/
theorem C9_margin_flags_at_zero :
    calculate_margin_level 0 100 = some 0 ∧
    check_margin_call (calculate_margin_level 0 100) = false ∧
    trigger_stop_out (calculate_margin_level 0 100) = false ∧
    check_margin_call (some 50) = true ∧
    trigger_stop_out (some 50) = false ∧
    check_margin_call none = false ∧
    trigger_stop_out none = false := by
  refine ⟨?_, ?_, ?_, ?_, ?_, rfl, rfl⟩ <;>
    norm_num [calculate_margin_level, check_margin_call, trigger_stop_out]

/-- C2 counterexample: the claim says an edit whose merged fields are
invalid raises ValidationError and leaves every field of the order
unchanged.  Editing the pending order `exEditOrder` (price 100) with the
invalid price `-5` does raise, but the order's price in the handler is
afterwards `-5`, not `100`: the source mutates the fields before
validating. -/
theorem C2_edit_order_counterexample :
    (edit_order exEditHandler 1 exBadKwargs).2 =
      some "Price must be greater than zero." ∧
    (edit_order exEditHandler 1 exBadKwargs).1.pending_orders.map Order.price =
      [-5] ∧
    exEditOrder.price = 100 ∧ (-5 : ℚ) ≠ 100 := by
  refine ⟨?_, ?_, rfl, by norm_num⟩ <;>
    norm_num [edit_order, exEditHandler, exEditOrder, exBadKwargs, mergeOrder,
      validate_order_params, badMaxTime, isSomeAndGe, isSomeAndLe, List.find?]

/-- C6 counterexample: the claim says that whenever a stop-loss is set and
the tick price is at or below it, the position is closed at the stop-loss
price.  `exZeroSlPos` has its stop-loss set to `0` (a value creation
validation accepts for a Buy) and the tick price `0` satisfies `0 ≤ 0`, yet
the tick leaves the handler unchanged — the position stays Active — because
`if position.sl` is false for `0.0` in Python. -/
theorem C6_tick_counterexample :
    exZeroSlPos.status = PositionStatus.ACTIVE ∧
    exZeroSlPos.sl = some 0 ∧ (0 : ℚ) ≤ 0 ∧
    process_active_positions (singlePositionHandler exZeroSlPos 10000) 0 7 =
      (singlePositionHandler exZeroSlPos 10000, none) := by
  refine ⟨rfl, rfl, le_refl 0, ?_⟩
  norm_num [process_active_positions, processPositionsAux, tickOne, slTriggers,
    tpTriggers, exZeroSlPos, singlePositionHandler, Position.mkNew]

/-- C7 counterexample: the claim says a timed-out pending order is cancelled
with reason `"Timeout reached"`.  Ticking `exTimeoutOrder` (duration 5 s) at
time 10 does cancel it, but the stored reason is the string
`"Timeout reached."` — with a trailing period — which differs from the
claim's string. -/
theorem C7_timeout_counterexample :
    (processOrderStep exTimeoutHandler exTimeoutOrder 100 10).2 = none ∧
    (processOrderStep exTimeoutHandler exTimeoutOrder 100 10).1.historical_orders.map
        Order.status = [OrderStatus.CANCELLED] ∧
    (processOrderStep exTimeoutHandler exTimeoutOrder 100 10).1.historical_orders.map
        Order.reason = [some "Timeout reached."] ∧
    some "Timeout reached." ≠ some "Timeout reached" := by
  refine ⟨?_, ?_, ?_, by decide⟩ <;>
    norm_num [processOrderStep, timeoutHit, truthyInt, cancel_order,
      Order.cancel, should_execute_order, exTimeoutHandler, exTimeoutOrder]

/-- C8 counterexample: the claim says a position modification applies only
to the single Active position identified by a given position id, leaving
every other position's stops unchanged.  `modify_position` takes no position
id at all, and calling it on a handler with two Active positions (stop
losses 95 and 80) rewrites the stop-loss of *both* to 96 — so whichever of
the two the claim's "identified" position is, the other one changed. -/
theorem C8_modify_counterexample :
    (modify_position exTwoPosHandler 100 (some 96) (some 112)).positions.map
        Position.sl = [some 96, some 96] ∧
    (modify_position exTwoPosHandler 100 (some 96) (some 112)).positions.map
        Position.tp = [some 112, some 112] ∧
    exBuyPos.sl = some 95 ∧ exBuyPosB.sl = some 80 ∧
    some (96 : ℚ) ≠ some 95 ∧ some (96 : ℚ) ≠ some 80 := by
  refine ⟨?_, ?_, rfl, rfl, by norm_num, by norm_num⟩ <;>
    norm_num [modify_position, modifyRule, truthyQ, exTwoPosHandler, exBuyPos,
      exBuyPosB, Position.mkNew]

/-- `Position.close` never changes the quantity field. -/
theorem Position.close_quantity (p : Position) (c t : ℚ) (r : Option String) :
    (Position.close p c t r).quantity = p.quantity := by
  unfold Position.close
  split <;> rfl

/-- `Position.close` of an Active position marks it Closed. -/
theorem Position.close_status_of_active (p : Position) (c t : ℚ) (r : Option String)
    (hact : p.status = PositionStatus.ACTIVE) :
    (Position.close p c t r).status = PositionStatus.CLOSED := by
  simp [Position.close, hact]

/-- `close_position` on a non-Active position object is a complete no-op. -/
theorem close_position_not_active (h : Handler) (price q ct : ℚ)
    (r : Option String) (pos : Position)
    (hstat : pos.status ≠ PositionStatus.ACTIVE) :
    close_position h price q ct r pos = ⟨h, pos, none⟩ := by
  simp [close_position, hstat]

/-- `close_position` of an Active position at its full current quantity:
the position is closed in place, removed from the active list, appended to
the persisted closures, and its profit/loss (assumed defined, i.e. the
position is a Buy or Sell) credited to the balance. -/
theorem close_position_full (h : Handler) (price ct : ℚ) (r : Option String)
    (pos : Position) (v : ℚ) (hact : pos.status = PositionStatus.ACTIVE)
    (hpl : realizedPnl pos price = some v) :
    close_position h price pos.quantity ct r pos =
      ⟨{ h with
          positions := removeById h.positions pos.position_id,
          closed_positions := h.closed_positions ++ [Position.close pos price ct r],
          current_balance := h.current_balance + v },
        Position.close pos price ct r, none⟩ := by
  simp [close_position, hact, Position.close, hpl]

/-- Case analysis of one `closeSeqStep`: either it changes nothing (no-op or
raise), or it is a partial closure (quantity moved onto exactly one new
closed sibling), or a full closure (the object closed with its whole
quantity and removed); in the latter two cases the quantity bookkeeping is
explicit. -/
theorem closeSeqStep_cases (s : Handler × Position) (req : CloseReq) :
    closeSeqStep s req = s ∨
    (s.2.status = PositionStatus.ACTIVE ∧ req.quantity < s.2.quantity ∧
      ∃ sib : Position, sib.quantity = req.quantity ∧
        (closeSeqStep s req).2 =
          { s.2 with quantity := s.2.quantity - req.quantity } ∧
        (closeSeqStep s req).1.positions =
          updateById s.1.positions s.2.position_id
            (fun _ => { s.2 with quantity := s.2.quantity - req.quantity }) ∧
        (closeSeqStep s req).1.closed_positions =
          s.1.closed_positions ++ [sib]) ∨
    (s.2.status = PositionStatus.ACTIVE ∧ s.2.quantity = req.quantity ∧
      ∃ posC : Position, posC.quantity = s.2.quantity ∧
        (closeSeqStep s req).2 = posC ∧
        posC.status = PositionStatus.CLOSED ∧
        (closeSeqStep s req).1.positions =
          removeById s.1.positions s.2.position_id ∧
        (closeSeqStep s req).1.closed_positions =
          s.1.closed_positions ++ [posC]) := by
  by_cases hact : s.2.status = PositionStatus.ACTIVE
  · by_cases hcap : s.2.quantity < req.quantity
    · left
      simp [closeSeqStep, close_position, hact, hcap]
    · by_cases hpart : req.quantity < s.2.quantity
      · refine Or.inr (Or.inl ⟨hact, hpart, ?_⟩)
        refine ⟨Position.close
            (Position.mkNew s.1.position_counter s.2.type s.2.open_price
              req.quantity none none s.2.open_time)
            req.price req.time (some (pyStr req.reason ++ " - Partial Close")),
          ?_, ?_⟩
        · rw [Position.close_quantity]
          rfl
        · cases hsib : (Position.close
              (Position.mkNew s.1.position_counter s.2.type s.2.open_price
                req.quantity none none s.2.open_time)
              req.price req.time
              (some (pyStr req.reason ++ " - Partial Close"))).profit_loss <;>
            simp [closeSeqStep, close_position, hact, hcap, hpart, hsib]
      · have heq : s.2.quantity = req.quantity :=
          le_antisymm (not_lt.mp hpart) (not_lt.mp hcap)
        refine Or.inr (Or.inr ⟨hact, heq, ?_⟩)
        refine ⟨Position.close s.2 req.price req.time req.reason, ?_, ?_⟩
        · rw [Position.close_quantity]
        · refine ⟨?_, Position.close_status_of_active s.2 req.price req.time
            req.reason hact, ?_, ?_⟩ <;>
            cases hpl : (Position.close s.2 req.price req.time req.reason).profit_loss <;>
            simp [closeSeqStep, close_position, hact, hcap, hpart, hpl]
  · left
    simp [closeSeqStep, close_position_not_active _ _ _ _ _ _ hact]

/-- One `closeSeqStep` preserves the coherence of the threaded pair and the
total quantity (closed so far plus still active). -/
theorem closeSeqStep_preserves (s : Handler × Position) (req : CloseReq)
    (hc : SeqCoherent s) :
    SeqCoherent (closeSeqStep s req) ∧
    closedQuantitySum (closeSeqStep s req).1 +
      activeQuantitySum (closeSeqStep s req).1 =
      closedQuantitySum s.1 + activeQuantitySum s.1 := by
  rcases closeSeqStep_cases s req with hcase |
    ⟨hact, hlt, sib, hsq, hobj, hpositions, hclosed⟩ |
    ⟨hact, heq, posC, hpq, hobj, hcstat, hpositions, hclosed⟩
  · rw [hcase]
    exact ⟨hc, rfl⟩
  · have hpos := hc hact
    constructor
    · intro _
      rw [hpositions, hobj, hpos]
      simp [updateById]
    · have h1 : closedQuantitySum (closeSeqStep s req).1 =
          closedQuantitySum s.1 + req.quantity := by
        unfold closedQuantitySum
        rw [hclosed]
        simp [hsq]
      have h2 : activeQuantitySum (closeSeqStep s req).1 =
          s.2.quantity - req.quantity := by
        unfold activeQuantitySum
        rw [hpositions, hpos]
        simp [updateById]
      have h3 : activeQuantitySum s.1 = s.2.quantity := by
        unfold activeQuantitySum
        rw [hpos]
        simp
      rw [h1, h2, h3]
      ring
  · constructor
    · intro hA
      rw [hobj] at hA
      rw [hcstat] at hA
      simp at hA
    · have hpos := hc hact
      have h1 : closedQuantitySum (closeSeqStep s req).1 =
          closedQuantitySum s.1 + s.2.quantity := by
        unfold closedQuantitySum
        rw [hclosed]
        simp [hpq]
      have h2 : activeQuantitySum (closeSeqStep s req).1 = 0 := by
        unfold activeQuantitySum
        rw [hpositions, hpos]
        simp [removeById]
      have h3 : activeQuantitySum s.1 = s.2.quantity := by
        unfold activeQuantitySum
        rw [hpos]
        simp
      rw [h1, h2, h3]
      ring

/-- A whole sequence of close requests preserves the quantity invariant from
any coherent start. -/
theorem closeSeq_invariant (reqs : List CloseReq) (s : Handler × Position)
    (hc : SeqCoherent s) :
    SeqCoherent (List.foldl closeSeqStep s reqs) ∧
    closedQuantitySum (List.foldl closeSeqStep s reqs).1 +
      activeQuantitySum (List.foldl closeSeqStep s reqs).1 =
      closedQuantitySum s.1 + activeQuantitySum s.1 := by
  induction reqs generalizing s with
  | nil => exact ⟨hc, rfl⟩
  | cons req rest ih =>
    obtain ⟨hc', hsum⟩ := closeSeqStep_preserves s req hc
    obtain ⟨hc2, hsum2⟩ := ih (closeSeqStep s req) hc'
    rw [List.foldl_cons]
    exact ⟨hc2, hsum2.trans hsum⟩

/-- C5: for every Active position closed at price `c` from open price `o`
with quantity `q`, the realized profit/loss is `(c - o) * q` for a Buy and
`(o - c) * q` for a Sell. -/
theorem C5_profit_loss_formula (p : Position) (c t : ℚ) (r : Option String)
    (hact : p.status = PositionStatus.ACTIVE) :
    (p.type = OrderType.BUY →
      (Position.close p c t r).profit_loss =
        some ((c - p.open_price) * p.quantity)) ∧
    (p.type = OrderType.SELL →
      (Position.close p c t r).profit_loss =
        some ((p.open_price - c) * p.quantity)) := by
  constructor <;> intro hty <;> simp [Position.close, hact, realizedPnl, hty]

/-- Witness for C5 at the spec's worked examples: a Buy opened at 100 with
quantity 10 closed at 105 yields 50, a Sell opened at 100 with quantity 10
closed at 95 yields 50. -/
theorem C5_profit_loss_formula_witness :
    (Position.close exBuyPos 105 1 (some "Manual close")).profit_loss = some 50 ∧
    (Position.close exSellPos 95 1 (some "Manual close")).profit_loss = some 50 := by
  constructor
  · have h := (C5_profit_loss_formula exBuyPos 105 1 (some "Manual close") rfl).1 rfl
    rw [h]
    norm_num [exBuyPos, Position.mkNew]
  · have h := (C5_profit_loss_formula exSellPos 95 1 (some "Manual close") rfl).2 rfl
    rw [h]
    norm_num [exSellPos, Position.mkNew]

/-- C3: closing more quantity than an Active position holds raises
`ValueError` (the CapacityError of the spec) and performs no mutation at
all: the handler — balance, active list, persisted closures — and every
field of the position are exactly as before the call. -/
theorem C3_close_capacity_no_mutation (h : Handler) (price quantity ct : ℚ)
    (r : Option String) (pos : Position)
    (hact : pos.status = PositionStatus.ACTIVE)
    (hq : pos.quantity < quantity) :
    close_position h price quantity ct r pos =
      ⟨h, pos, some "Cannot close more than the available quantity."⟩ := by
  simp [close_position, hact, hq]

/-- Witness for C3: closing 15 out of a position of 10 fails and leaves the
handler and position untouched. -/
theorem C3_close_capacity_no_mutation_witness :
    close_position exHandler 105 15 1 (some "Excess close") exBuyPos =
      ⟨exHandler, exBuyPos, some "Cannot close more than the available quantity."⟩ ∧
    exBuyPos.quantity = 10 ∧ (10 : ℚ) < 15 :=
  ⟨C3_close_capacity_no_mutation exHandler 105 15 1 (some "Excess close") exBuyPos
      rfl (by norm_num [exBuyPos, Position.mkNew]),
   rfl, by norm_num⟩

/-- C2 (amended): editing an order whose id is not among the pending orders
is a no-op; editing a Pending order first overwrites its fields with the
merged values and only then re-validates them with the creation rules, so an
invalid merge raises ValidationError with the mutation already applied (the
order keeps the merged, invalid values), while a valid merge updates the
fields in place and raises nothing. -/
theorem C2_edit_order_mutates_then_validates (h : Handler) (oid : Nat)
    (kw : EditKwargs) :
    (h.pending_orders.find? (fun o => decide (o.order_id = oid)) = none →
      edit_order h oid kw = (h, none)) ∧
    (∀ o : Order,
      h.pending_orders.find? (fun o => decide (o.order_id = oid)) = some o →
      o.status = OrderStatus.PENDING →
      edit_order h oid kw =
        ({ h with
            pending_orders := h.pending_orders.map
              (fun q => if q.order_id = oid then mergeOrder o kw else q) },
         match validate_order_params (mergeOrder o kw).type (mergeOrder o kw).price
            (mergeOrder o kw).quantity (mergeOrder o kw).sl (mergeOrder o kw).tp
            (mergeOrder o kw).max_time_active with
         | Except.ok _ => none
         | Except.error e => some e)) := by
  constructor
  · intro hnone
    simp [edit_order, hnone]
  · intro o hfind hpend
    cases hv : validate_order_params (mergeOrder o kw).type (mergeOrder o kw).price
        (mergeOrder o kw).quantity (mergeOrder o kw).sl (mergeOrder o kw).tp
        (mergeOrder o kw).max_time_active <;>
      simp [edit_order, hfind, hpend, hv]

/-- Witness for C2 (amended): a valid edit of the pending order updates its
stops in place and raises nothing. -/
theorem C2_edit_order_mutates_then_validates_witness :
    edit_order exEditHandler 1 exGoodKwargs =
      ({ exEditHandler with
          pending_orders := exEditHandler.pending_orders.map
            (fun q => if q.order_id = 1 then mergeOrder exEditOrder exGoodKwargs else q) },
       none) := by
  have h := (C2_edit_order_mutates_then_validates exEditHandler 1 exGoodKwargs).2
      exEditOrder (by simp [exEditHandler, exEditOrder, List.find?]) rfl
  rw [h]
  norm_num [validate_order_params, mergeOrder, exEditOrder, exGoodKwargs,
    badMaxTime, isSomeAndGe, isSomeAndLe]
  decide

/-- C7 (amended): every pending order with a positive `max_active_duration`,
ticked at a time whose elapsed seconds since creation exceed the duration,
is cancelled — regardless of the tick price, the timeout check preceding the
execution predicate — with reason `"Timeout reached."` (the source string
carries a trailing period), removed from the pending list and handed to the
historical list. -/
theorem C7_timeout_cancels (h : Handler) (o : Order) (price t : ℚ) (m : Int)
    (hpend : o.status = OrderStatus.PENDING)
    (hm : o.max_time_active = some m) (hmpos : 0 < m)
    (helapsed : (m : ℚ) < t - o.creation_time) :
    processOrderStep h o price t =
      (cancel_order h o "Timeout reached.", none) ∧
    (cancel_order h o "Timeout reached.").historical_orders =
      h.historical_orders ++
        [{ o with status := OrderStatus.CANCELLED, reason := some "Timeout reached." }] ∧
    (cancel_order h o "Timeout reached.").pending_orders =
      h.pending_orders.filter (fun q => decide (q.order_id ≠ o.order_id)) := by
  have hne : m ≠ 0 := hmpos.ne'
  have htime : timeoutHit o t = true := by
    simp [timeoutHit, truthyInt, hm, hne, helapsed]
  refine ⟨?_, ?_, ?_⟩
  · simp [processOrderStep, hpend, htime]
  · simp [cancel_order, Order.cancel, hpend]
  · simp [cancel_order, hpend]

/-- Witness for C7 at the spec's example: duration 5 s, ticked at creation
time + 10 s, at a price that would otherwise execute the Buy order. -/
theorem C7_timeout_cancels_witness :
    processOrderStep exTimeoutHandler exTimeoutOrder 100 10 =
      (cancel_order exTimeoutHandler exTimeoutOrder "Timeout reached.", none) ∧
    (0 : Int) < 5 ∧ ((5 : Int) : ℚ) < 10 - exTimeoutOrder.creation_time :=
  ⟨(C7_timeout_cancels exTimeoutHandler exTimeoutOrder 100 10 5 rfl rfl
      (by norm_num) (by norm_num [exTimeoutOrder])).1,
   by norm_num, by norm_num [exTimeoutOrder]⟩

/-- C8 (amended): `modify_position` takes no position id; it applies the
truthy new stop-loss / take-profit to every Active position (a falsy
argument keeps the old field), leaves every non-Active position and every
other position field untouched, leaves the rest of the handler unchanged,
and the price argument has no effect on the result. -/
theorem C8_modify_applies_to_all_active (h : Handler) (price price' : ℚ)
    (sl tp : Option ℚ) :
    (modify_position h price sl tp).positions =
      h.positions.map (modifyRule sl tp) ∧
    (∀ p : Position, p.status ≠ PositionStatus.ACTIVE → modifyRule sl tp p = p) ∧
    (∀ p : Position, p.status = PositionStatus.ACTIVE →
      (modifyRule sl tp p).sl = (if truthyQ sl then sl else p.sl) ∧
      (modifyRule sl tp p).tp = (if truthyQ tp then tp else p.tp) ∧
      (modifyRule sl tp p).position_id = p.position_id ∧
      (modifyRule sl tp p).type = p.type ∧
      (modifyRule sl tp p).open_price = p.open_price ∧
      (modifyRule sl tp p).quantity = p.quantity ∧
      (modifyRule sl tp p).status = PositionStatus.ACTIVE) ∧
    (modify_position h price sl tp).pending_orders = h.pending_orders ∧
    (modify_position h price sl tp).current_balance = h.current_balance ∧
    (modify_position h price sl tp).closed_positions = h.closed_positions ∧
    modify_position h price sl tp = modify_position h price' sl tp := by
  refine ⟨rfl, ?_, ?_, rfl, rfl, rfl, rfl⟩
  · intro p hp
    simp [modifyRule, hp]
  · intro p hp
    simp [modifyRule, hp]

/-- Witness for C8 (amended): a Closed position is untouched, an Active one
receives the new stop-loss. -/
theorem C8_modify_applies_to_all_active_witness :
    modifyRule (some 96) (some 112) exClosedPos = exClosedPos ∧
    (modifyRule (some 96) (some 112) exBuyPos).sl =
      (if truthyQ (some 96) then some 96 else exBuyPos.sl) := by
  constructor
  · exact (C8_modify_applies_to_all_active exTwoPosHandler 100 100 (some 96)
      (some 112)).2.1 exClosedPos
      (by simp [exClosedPos, Position.close, exSellPos, Position.mkNew])
  · exact ((C8_modify_applies_to_all_active exTwoPosHandler 100 100 (some 96)
      (some 112)).2.2.1 exBuyPos rfl).1

/-- C10: the execution predicate holds only for Buy orders at or below the
order price and Sell orders at or above it, so it is false for Modify and
Close orders at every price; consequently one pending-tick step on a Modify
or Close order never executes it and never touches any position: it raises
nothing, leaves the active and closed position lists unchanged, adds at most
a Cancelled (timed-out) order to the historical records, and every order
still pending afterwards was pending before. -/
theorem C10_modify_close_never_execute :
    (∀ (o : Order) (price : ℚ),
      o.type = OrderType.MODIFY ∨ o.type = OrderType.CLOSE →
      should_execute_order o price = false) ∧
    (∀ (h : Handler) (o : Order) (price t : ℚ),
      o.type = OrderType.MODIFY ∨ o.type = OrderType.CLOSE →
      (processOrderStep h o price t).2 = none ∧
      (processOrderStep h o price t).1.positions = h.positions ∧
      (processOrderStep h o price t).1.closed_positions = h.closed_positions ∧
      (∀ q ∈ (processOrderStep h o price t).1.historical_orders,
        q ∈ h.historical_orders ∨ q.status = OrderStatus.CANCELLED) ∧
      (∀ q ∈ (processOrderStep h o price t).1.pending_orders,
        q ∈ h.pending_orders)) := by
  have hpred : ∀ (o : Order) (price : ℚ),
      o.type = OrderType.MODIFY ∨ o.type = OrderType.CLOSE →
      should_execute_order o price = false := by
    intro o price hty
    rcases hty with hty | hty <;> simp [should_execute_order, hty]
  refine ⟨hpred, ?_⟩
  intro h o price t hty
  by_cases hpend : o.status = OrderStatus.PENDING
  · by_cases htime : timeoutHit o t = true
    · have hstep : processOrderStep h o price t =
          (cancel_order h o "Timeout reached.", none) := by
        simp [processOrderStep, hpend, htime]
      have hcan : cancel_order h o "Timeout reached." =
          { h with
            pending_orders :=
              h.pending_orders.filter (fun q => decide (q.order_id ≠ o.order_id)),
            historical_orders :=
              h.historical_orders ++ [Order.cancel o "Timeout reached."] } := by
        simp [cancel_order, hpend]
      rw [hstep, hcan]
      refine ⟨rfl, rfl, rfl, ?_, ?_⟩
      · intro q hq
        simp only [List.mem_append, List.mem_singleton] at hq
        rcases hq with hq | hq
        · exact Or.inl hq
        · subst hq
          exact Or.inr (by simp [Order.cancel, hpend])
      · intro q hq
        exact List.mem_of_mem_filter hq
    · have hstep : processOrderStep h o price t = (h, none) := by
        simp [processOrderStep, hpend, htime, hpred o price hty]
      rw [hstep]
      exact ⟨rfl, rfl, rfl, fun q hq => Or.inl hq, fun q hq => hq⟩
  · have hstep : processOrderStep h o price t = (h, none) := by
      simp [processOrderStep, hpend]
    rw [hstep]
    exact ⟨rfl, rfl, rfl, fun q hq => Or.inl hq, fun q hq => hq⟩

/-- Witness for C10: a pending Modify order ticked at a price below its
order price is neither executed nor does it touch the active positions. -/
theorem C10_modify_close_never_execute_witness :
    should_execute_order exModifyOrder 50 = false ∧
    (processOrderStep exModifyHandler exModifyOrder 50 3).1.positions =
      exModifyHandler.positions ∧
    (processOrderStep exModifyHandler exModifyOrder 50 3).2 = none :=
  ⟨C10_modify_close_never_execute.1 exModifyOrder 50 (Or.inl rfl),
   (C10_modify_close_never_execute.2 exModifyHandler exModifyOrder 50 3 (Or.inl rfl)).2.1,
   (C10_modify_close_never_execute.2 exModifyHandler exModifyOrder 50 3 (Or.inl rfl)).1⟩

/-- C6 (amended): during a position tick the stop-loss is evaluated before
the take-profit, both against the pre-tick state of the position.  If the
stop-loss is set *to a non-zero value* (the source's truthiness test skips a
stop of 0) and the tick price is at or below it, the position is closed at
the stop-loss price with reason `"Stop Loss triggered"` — even when the
take-profit threshold is crossed by the same tick, since the subsequent
take-profit check is a no-op on the already-Closed object.  Otherwise, if
the take-profit is set to a non-zero value and the price is at or above it,
the position is closed at the take-profit price with reason
`"Take Profit triggered"`.  If neither rule fires the tick leaves handler
and position untouched. -/
theorem C6_sl_evaluated_before_tp (h : Handler) (p : Position) (price t : ℚ)
    (hact : p.status = PositionStatus.ACTIVE)
    (hty : p.type = OrderType.BUY ∨ p.type = OrderType.SELL) :
    (∀ s : ℚ, p.sl = some s → s ≠ 0 → price ≤ s →
      tickOne h p price t =
        ({ h with
            positions := removeById h.positions p.position_id,
            closed_positions := h.closed_positions ++
              [Position.close p s t (some "Stop Loss triggered")],
            current_balance := h.current_balance + (realizedPnl p s).getD 0 },
          none)) ∧
    (slTriggers p price = false →
      ∀ u : ℚ, p.tp = some u → u ≠ 0 → u ≤ price →
      tickOne h p price t =
        ({ h with
            positions := removeById h.positions p.position_id,
            closed_positions := h.closed_positions ++
              [Position.close p u t (some "Take Profit triggered")],
            current_balance := h.current_balance + (realizedPnl p u).getD 0 },
          none)) ∧
    (slTriggers p price = false → tpTriggers p price = false →
      tickOne h p price t = (h, none)) := by
  have hpl : ∀ c : ℚ, ∃ v, realizedPnl p c = some v := by
    intro c
    rcases hty with h1 | h1
    · exact ⟨(c - p.open_price) * p.quantity, by simp [realizedPnl, h1]⟩
    · exact ⟨(p.open_price - c) * p.quantity, by simp [realizedPnl, h1]⟩
  refine ⟨?_, ?_, ?_⟩
  · intro s hs hne hle
    obtain ⟨v, hv⟩ := hpl s
    have hsl : slTriggers p price = true := by
      simp [slTriggers, hs, hne, hle]
    have hcl : (Position.close p s t (some "Stop Loss triggered")).status ≠
        PositionStatus.ACTIVE := by
      rw [Position.close_status_of_active p s t (some "Stop Loss triggered") hact]
      simp
    have hnoop := fun h2 =>
      close_position_not_active h2
        ((Position.close p s t (some "Stop Loss triggered")).tp.getD 0)
        (Position.close p s t (some "Stop Loss triggered")).quantity t
        (some "Take Profit triggered")
        (Position.close p s t (some "Stop Loss triggered")) hcl
    cases htp : tpTriggers (Position.close p s t (some "Stop Loss triggered")) price <;>
      simp [tickOne, hact, hsl, process_stop_loss, hs,
        close_position_full h s t (some "Stop Loss triggered") p v hact hv,
        process_take_profit, htp, hnoop, hv]
  · intro hslf u hu hune hule
    obtain ⟨v, hv⟩ := hpl u
    have htp : tpTriggers p price = true := by
      simp [tpTriggers, hu, hune, hule]
    simp [tickOne, hact, hslf, htp, process_take_profit, hu,
      close_position_full h u t (some "Take Profit triggered") p v hact hv, hv]
  · intro hslf htpf
    simp [tickOne, hact, hslf, htpf]

/-- Witness for C6 (amended) at a tick that crosses both thresholds: a Sell
position with stop-loss 110 and take-profit 95 ticked at price 100 satisfies
both rules (100 ≤ 110 and 95 ≤ 100), and the stop-loss close wins. -/
theorem C6_sl_evaluated_before_tp_witness :
    tickOne (singlePositionHandler exSellBothCross 10000) exSellBothCross 100 3 =
      ({ singlePositionHandler exSellBothCross 10000 with
          positions := removeById
            (singlePositionHandler exSellBothCross 10000).positions
            exSellBothCross.position_id,
          closed_positions :=
            (singlePositionHandler exSellBothCross 10000).closed_positions ++
              [Position.close exSellBothCross 110 3 (some "Stop Loss triggered")],
          current_balance :=
            (singlePositionHandler exSellBothCross 10000).current_balance +
              (realizedPnl exSellBothCross 110).getD 0 },
        none) ∧
    exSellBothCross.tp = some 95 ∧ (95 : ℚ) ≤ 100 ∧ (95 : ℚ) ≠ 0 :=
  ⟨(C6_sl_evaluated_before_tp (singlePositionHandler exSellBothCross 10000)
      exSellBothCross 100 3 rfl (Or.inr rfl)).1 110 rfl (by norm_num) (by norm_num),
   rfl, by norm_num, by norm_num⟩

/-- C4: (a) every partial close of an Active (Buy or Sell) position raises
nothing, leaves the original Active with its quantity reduced by the closed
slice, and spawns exactly one new already-Closed sibling whose quantity is
the closed slice and whose reason is the request's reason suffixed with
`" - Partial Close"`; (b) for every position opened with quantity `Q` and
every sequence of closes applied to it, after every step the sum of the
quantities of the spawned Closed positions plus the quantity still held in
the active list equals `Q`. -/
theorem C4_partial_close_conservation :
    (∀ (h : Handler) (price q ct : ℚ) (r : String) (pos : Position),
      pos.status = PositionStatus.ACTIVE →
      (pos.type = OrderType.BUY ∨ pos.type = OrderType.SELL) →
      q < pos.quantity →
      (close_position h price q ct (some r) pos).err = none ∧
      (close_position h price q ct (some r) pos).obj =
        { pos with quantity := pos.quantity - q } ∧
      (close_position h price q ct (some r) pos).obj.status =
        PositionStatus.ACTIVE ∧
      ∃ sib : Position,
        (close_position h price q ct (some r) pos).handler.closed_positions =
          h.closed_positions ++ [sib] ∧
        sib.status = PositionStatus.CLOSED ∧
        sib.quantity = q ∧
        sib.reason = some (r ++ " - Partial Close")) ∧
    (∀ (pos : Position) (balance : ℚ) (reqs : List CloseReq) (n : ℕ),
      closedQuantitySum (List.foldl closeSeqStep
          (singlePositionHandler pos balance, pos) (List.take n reqs)).1 +
        activeQuantitySum (List.foldl closeSeqStep
          (singlePositionHandler pos balance, pos) (List.take n reqs)).1 =
        pos.quantity) := by
  constructor
  · intro h price q ct r pos hact hty hlt
    have hncap : ¬ pos.quantity < q := lt_asymm hlt
    have hv : ∃ v, (Position.close
        (Position.mkNew h.position_counter pos.type pos.open_price q none none
          pos.open_time) price ct
        (some (pyStr (some r) ++ " - Partial Close"))).profit_loss = some v := by
      rcases hty with h1 | h1
      · exact ⟨(price - pos.open_price) * q,
          by simp [Position.close, Position.mkNew, realizedPnl, h1]⟩
      · exact ⟨(pos.open_price - price) * q,
          by simp [Position.close, Position.mkNew, realizedPnl, h1]⟩
    obtain ⟨v, hv⟩ := hv
    refine ⟨?_, ?_, ?_, ?_⟩
    · simp [close_position, hact, hncap, hlt, hv]
    · simp [close_position, hact, hncap, hlt, hv]
    · simp [close_position, hact, hncap, hlt, hv]
    · refine ⟨Position.close
        (Position.mkNew h.position_counter pos.type pos.open_price q none none
          pos.open_time) price ct (some (pyStr (some r) ++ " - Partial Close")),
        ?_, ?_, ?_, ?_⟩
      · simp [close_position, hact, hncap, hlt, hv]
      · exact Position.close_status_of_active _ price ct _ rfl
      · rw [Position.close_quantity]
        rfl
      · simp [Position.close, Position.mkNew, pyStr]
  · intro pos balance reqs n
    have hc0 : SeqCoherent (singlePositionHandler pos balance, pos) := by
      intro _
      rfl
    have h0c : closedQuantitySum (singlePositionHandler pos balance) = 0 := by
      simp [closedQuantitySum, singlePositionHandler]
    have h0a : activeQuantitySum (singlePositionHandler pos balance) =
        pos.quantity := by
      simp [activeQuantitySum, singlePositionHandler]
    have h := (closeSeq_invariant (List.take n reqs)
      (singlePositionHandler pos balance, pos) hc0).2
    rw [h]
    rw [h0c, h0a]
    ring

/-- Witness for C4: closing 5 out of 10 leaves 5 on the Active original and
spawns one Closed sibling of quantity 5 with the suffixed reason; and after
the spec's two partial closes (3, then 2) the quantity ledger still sums to
the opened 10. -/
theorem C4_partial_close_conservation_witness :
    ((close_position exHandler 105 5 1 (some "Partial close") exBuyPos).err = none ∧
     (close_position exHandler 105 5 1 (some "Partial close") exBuyPos).obj =
       { exBuyPos with quantity := exBuyPos.quantity - 5 } ∧
     (close_position exHandler 105 5 1 (some "Partial close") exBuyPos).obj.status =
       PositionStatus.ACTIVE ∧
     ∃ sib : Position,
       (close_position exHandler 105 5 1
           (some "Partial close") exBuyPos).handler.closed_positions =
         exHandler.closed_positions ++ [sib] ∧
       sib.status = PositionStatus.CLOSED ∧
       sib.quantity = 5 ∧
       sib.reason = some ("Partial close" ++ " - Partial Close")) ∧
    closedQuantitySum (List.foldl closeSeqStep
        (singlePositionHandler exBuyPos 10000, exBuyPos) (List.take 2 exCloseReqs)).1 +
      activeQuantitySum (List.foldl closeSeqStep
        (singlePositionHandler exBuyPos 10000, exBuyPos) (List.take 2 exCloseReqs)).1 =
      exBuyPos.quantity :=
  ⟨C4_partial_close_conservation.1 exHandler 105 5 1 "Partial close" exBuyPos rfl
      (Or.inl rfl) (by norm_num [exBuyPos, Position.mkNew]),
   C4_partial_close_conservation.2 exBuyPos 10000 exCloseReqs 2⟩

end AlgoTrading
